import Mathlib

/-!
Shallow embedding of the VoxOver narration studio (app.py, utils.py, genai.py):
the Streamlit session state and its callback functions, the frame-sampling and
word-budget logic of narration drafting, and the audio/video merge, together
with proofs of the specification's claims about them.

External collaborators (the OpenAI services and the moviepy media library) are
modelled as the spec directs: the generation/synthesis calls as parameters that
either return a value or fail, and the media library as clip values with
duration and sample data plus the operations the code consumes
(`with_volume_scaled`, `subclipped`, `CompositeAudioClip`).
-/

/-! ## Session state (app.py)

`st.session_state` keys set up by `init_session_state` / `get_session_temp_dir`,
plus `scratch_files`: an abstraction of the files living in the session's
scratch directory on disk (the code never deletes them outside of OS cleanup).
-/

structure AppState where
  video_path : Option String
  voiceover_text : String
  audio_path : Option String
  merged_video_path : Option String
  processing_step : Nat
  instructions : String
  video_volume : ℚ
  audio_volume : ℚ
  selected_voice : String
  voice_speed : ℚ
  temp_dir : Option String
  scratch_files : List String
deriving DecidableEq

/-- The session state produced by `init_session_state` (app.py lines 77-97) on a
fresh session: every key set to its default. `temp_dir` is not yet created and
no scratch file exists. -/
def default_session_state : AppState :=
  { video_path := none
    voiceover_text := ""
    audio_path := none
    merged_video_path := none
    processing_step := 0
    instructions := ""
    video_volume := 3/10
    audio_volume := 1
    selected_voice := "nova"
    voice_speed := 1
    temp_dir := none
    scratch_files := [] }

/-- `get_session_temp_dir` (app.py lines 71-74): returns the session's temp
directory, creating it (via `tempfile.mkdtemp`, modelled by the `fresh_dir`
argument) only when absent. -/
def get_session_temp_dir (s : AppState) (fresh_dir : String) : AppState × String :=
  match s.temp_dir with
  | some d => (s, d)
  | none => ({ s with temp_dir := some fresh_dir }, fresh_dir)

/-- `generate_text_callback` (app.py lines 115-126): sets `processing_step := 1`
before the call; `generated = some text` models `generate_voiceover_text`
returning, `none` models it raising, in which case the script is reset to `""`. -/
def generate_text_callback (s : AppState) (generated : Option String) : AppState :=
  let s1 := { s with processing_step := 1 }
  match generated with
  | some text => { s1 with voiceover_text := text }
  | none => { s1 with voiceover_text := "" }

/-- `generate_audio_callback` (app.py lines 128-146): sets `processing_step := 2`
before the call, builds a fresh uuid path `new_path` in the temp dir, and on
success stores it in `audio_path` (the synthesized file lands in the scratch
directory); on failure (`success = false`, the synthesis call raised)
`audio_path` is reset to `none`. No other key is written. -/
def generate_audio_callback (s : AppState) (new_path : String) (success : Bool) : AppState :=
  let s1 := { s with processing_step := 2 }
  if success then
    { s1 with audio_path := some new_path, scratch_files := s.scratch_files ++ [new_path] }
  else
    { s1 with audio_path := none }

/-- `merge_video_audio_callback` (app.py lines 148-167): sets
`processing_step := 3` before the call; on success stores the fresh merged path,
on failure resets `merged_video_path` to `none`. -/
def merge_video_audio_callback (s : AppState) (new_path : String) (success : Bool) : AppState :=
  let s1 := { s with processing_step := 3 }
  if success then
    { s1 with merged_video_path := some new_path,
              scratch_files := s.scratch_files ++ [new_path] }
  else
    { s1 with merged_video_path := none }

/-- `start_over` (app.py lines 169-174): sets `video_path`, `audio_path`,
`merged_video_path` to `None`, `voiceover_text` to `""`, `processing_step`
to `0` (the loop first sets it to `None`, line 173 then sets `0`), and touches
nothing else — in particular neither `temp_dir` nor any file on disk. -/
def start_over (s : AppState) : AppState :=
  { s with video_path := none
           voiceover_text := ""
           audio_path := none
           merged_video_path := none
           processing_step := 0 }

/-- A concrete session that has reached the MergeReady stage (ordinal 3), with
all three generated artifacts present in the scratch directory. -/
def mergeReadyState : AppState :=
  { video_path := some "/tmp/sess/input_video_1.mp4"
    voiceover_text := "A quiet morning unfolds over the harbor."
    audio_path := some "/tmp/sess/voiceover_1.mp3"
    merged_video_path := some "/tmp/sess/merged_video_1.mp4"
    processing_step := 3
    instructions := "narrate simply"
    video_volume := 3/10
    audio_volume := 1
    selected_voice := "nova"
    voice_speed := 1
    temp_dir := some "/tmp/sess"
    scratch_files := ["/tmp/sess/input_video_1.mp4", "/tmp/sess/voiceover_1.mp3",
                      "/tmp/sess/merged_video_1.mp4"] }

/-! ## Narration drafting (utils.py `generate_voiceover_text`,
genai.py `generate_video_description`) -/

/-- genai.py line 272: `timestamps = [i * duration / 9 for i in range(10)]`. -/
def timestamps (duration : ℚ) : List ℚ :=
  (List.range 10).map (fun i : ℕ => (i : ℚ) * duration / 9)

/-- utils.py line 47: `wps = 200/60`, 200 words per minute over 60 seconds. -/
def wps : ℚ := 200/60

/-- utils.py line 49: `nwords_max = wps*duration_secs`. -/
def nwords_max (duration_secs : ℚ) : ℚ := wps * duration_secs

/-- utils.py line 52, the fixed part of the f-string before the budget value. -/
def word_budget_pre : String := "\nYour voiceover text should be less than "

/-- utils.py line 52, the fixed part of the f-string after the budget value. -/
def word_budget_post : String := " words long."

/-- utils.py line 53, the sentence appended by `instructions_modified +=`. -/
def no_hashtag_sentence : String :=
  "Do not use any hashtags or emojis in the voiceover text as this will be read aloud."

/-- utils.py lines 52-53: `instructions_modified`, the user's instructions with
the word-budget constraint interpolated and the no-hashtags sentence appended. -/
def instructions_modified (instructions : String) (budget_str : String) : String :=
  (instructions ++ (word_budget_pre ++ budget_str ++ word_budget_post)) ++ no_hashtag_sentence

/-- utils.py lines 47-54: the prompt `generate_voiceover_text` hands to the
generation service. Python's f-string rendering of the float budget is
abstracted as `render`. -/
def generate_voiceover_text_prompt (instructions : String) (duration_secs : ℚ)
    (render : ℚ → String) : String :=
  instructions_modified instructions (render (nwords_max duration_secs))

/-! ## Audio/video merge (utils.py `merge_video_with_audio`)

An audio clip is its duration plus its sample data, a map from time to
amplitude; a video clip is its duration plus an optional embedded audio track.
The three moviepy operations the merge consumes are modelled as the spec's
"opaque library" describes them. -/

structure AudioClip where
  duration : ℚ
  samples : ℚ → ℚ

structure VideoClip where
  duration : ℚ
  audio : Option AudioClip

/-- moviepy `clip.with_volume_scaled(factor)`: multiplies every sample by the
gain factor; the duration is unchanged. -/
def with_volume_scaled (c : AudioClip) (factor : ℚ) : AudioClip :=
  { duration := c.duration, samples := fun t => factor * c.samples t }

/-- moviepy `clip.subclipped(start_time, end_time)`: keeps the samples in the
window and has duration `end_time - start_time`. -/
def subclipped (c : AudioClip) (start_time end_time : ℚ) : AudioClip :=
  { duration := end_time - start_time, samples := fun t => c.samples (start_time + t) }

/-- moviepy `CompositeAudioClip([a, b])`: the sample-wise sum of the two tracks,
each contributing on its own duration; total duration is the later end. -/
def CompositeAudioClip (a b : AudioClip) : AudioClip :=
  { duration := max a.duration b.duration
    samples := fun t =>
      (if t < a.duration then a.samples t else 0) +
      (if t < b.duration then b.samples t else 0) }

/-- utils.py lines 108-112: the original audio, gain-scaled only when
`video_volume != 1.0` (the no-op fast path). -/
def original_audio_scaled (video_clip : VideoClip) (video_volume : ℚ) : Option AudioClip :=
  match video_clip.audio with
  | some a => some (if video_volume ≠ 1 then with_volume_scaled a video_volume else a)
  | none => none

/-- utils.py lines 115-116: the added audio, gain-scaled only when
`audio_volume != 1.0` (the no-op fast path). -/
def added_audio_scaled (added_audio_clip : AudioClip) (audio_volume : ℚ) : AudioClip :=
  if audio_volume ≠ 1 then with_volume_scaled added_audio_clip audio_volume
  else added_audio_clip

/-- utils.py lines 119-120: trim the added audio to the video's duration when it
is longer. -/
def added_audio_trimmed (video_clip : VideoClip) (added : AudioClip) : AudioClip :=
  if added.duration > video_clip.duration then subclipped added 0 video_clip.duration
  else added

/-- utils.py lines 108-136: the audio track of the merged output — the
composite of the scaled original audio (when the video has one) with the
scaled-and-trimmed added audio, or the latter alone. -/
def final_audio (video_clip : VideoClip) (added_audio_clip : AudioClip)
    (video_volume audio_volume : ℚ) : AudioClip :=
  let original_audio := original_audio_scaled video_clip video_volume
  let added1 := added_audio_scaled added_audio_clip audio_volume
  let added2 := added_audio_trimmed video_clip added1
  match original_audio with
  | some oa => CompositeAudioClip oa added2
  | none => added2

/-! ### Handle lifecycle of `merge_video_with_audio` (utils.py lines 98-167)

The function opens up to four media handles inside its `try` block and closes
them (lines 154-158) only after `write_videofile` returns; the `except` block
(lines 163-167) logs and re-raises without closing anything. `MergeRun` records
which handles an execution opens and closes and whether it re-raises; the
failure points are the fallible calls in program order. -/

inductive MediaHandle
  | video_clip | added_audio_clip | original_audio | final_clip
deriving DecidableEq

inductive MergeFailure
  | loadVideo | loadAudio | writeFile
deriving DecidableEq

structure MergeRun where
  opened : List MediaHandle
  closed : List MediaHandle
  raised : Bool
deriving DecidableEq

/-- The handle trace of one execution of `merge_video_with_audio`:
`has_original_audio` is whether `video_clip.audio is not None`, `fail` is the
first call that raises (`none` for a successful run). On the success path
lines 154-158 close every opened handle; on the exception path the
`except` block closes nothing and re-raises (line 167). -/
def merge_video_with_audio_run (has_original_audio : Bool)
    (fail : Option MergeFailure) : MergeRun :=
  if fail = some MergeFailure.loadVideo then
    { opened := [], closed := [], raised := true }
  else if fail = some MergeFailure.loadAudio then
    { opened := [MediaHandle.video_clip], closed := [], raised := true }
  else
    let opened := [MediaHandle.video_clip, MediaHandle.added_audio_clip] ++
      (if has_original_audio then [MediaHandle.original_audio] else []) ++
      [MediaHandle.final_clip]
    if fail = some MergeFailure.writeFile then
      { opened := opened, closed := [], raised := true }
    else
      { opened := opened, closed := opened, raised := false }

/-! ## Theorems -/

/-- Claim C1, counterexample. On the fresh default session (stage ordinal 0), a
failed text generation leaves the controller at ordinal 1, not at its
pre-invocation value 0: the callback writes `processing_step = 1` before the
fallible call, so the claim's "ordinal after a failed invocation equals its
value before" is false. -/
theorem generate_text_failure_advances_step :
    (generate_text_callback default_session_state none).processing_step ≠
      default_session_state.processing_step := by
  decide

/-- Claim C1, amended: when a stage's underlying call raises, the stage's own
output artifact is reset to empty/absent (script to `""`, audio path and merged
path to `none`), but the controller ordinal is not left unchanged — each
callback unconditionally sets it to the invoked stage's own ordinal (1, 2, 3)
before the call, so after a failure it equals that ordinal, whatever its
previous value was. -/
theorem stage_failure_resets_artifact (s : AppState) (p q : String) :
    (generate_text_callback s none).voiceover_text = "" ∧
    (generate_text_callback s none).processing_step = 1 ∧
    (generate_audio_callback s p false).audio_path = none ∧
    (generate_audio_callback s p false).processing_step = 2 ∧
    (merge_video_audio_callback s q false).merged_video_path = none ∧
    (merge_video_audio_callback s q false).processing_step = 3 := by
  refine ⟨rfl, rfl, ?_, ?_, ?_, ?_⟩ <;>
    simp [generate_audio_callback, merge_video_audio_callback]

/-- Claim C2, counterexample. Re-running speech synthesis successfully from the
MergeReady session does not invalidate the downstream merged-video artifact:
`generate_audio_callback` never writes `merged_video_path`, so the stale
reference survives instead of being set to absent. -/
theorem rerun_audio_keeps_stale_merged_video :
    (generate_audio_callback mergeReadyState "/tmp/sess/voiceover_2.mp3" true).merged_video_path
      ≠ none := by
  decide

/-- Claim C2, amended: re-running speech synthesis stores the fresh audio path
(a new file, distinct from the previous one) and leaves the upstream artifacts
— the narration script and the source video — unchanged; but the previous
MergedVideo reference is NOT set to absent: `merged_video_path` keeps its old
value, and only the stage ordinal is set back to 2, which hides (but does not
discard) the stale merged video. -/
theorem rerun_audio_replaces_audio_only (s : AppState) (p : String)
    (h : s.audio_path ≠ some p) :
    (generate_audio_callback s p true).audio_path = some p ∧
    (generate_audio_callback s p true).audio_path ≠ s.audio_path ∧
    (generate_audio_callback s p true).voiceover_text = s.voiceover_text ∧
    (generate_audio_callback s p true).video_path = s.video_path ∧
    (generate_audio_callback s p true).merged_video_path = s.merged_video_path ∧
    (generate_audio_callback s p true).processing_step = 2 := by
  refine ⟨rfl, ?_, rfl, rfl, rfl, rfl⟩
  simp only [generate_audio_callback, if_pos rfl]
  exact fun heq => h heq.symm

/-- Claim C2, witness for the amended theorem at the concrete MergeReady
session and a fresh uuid path. -/
theorem rerun_audio_replaces_audio_only_witness :
    (generate_audio_callback mergeReadyState "/tmp/sess/voiceover_2.mp3" true).audio_path =
        some "/tmp/sess/voiceover_2.mp3" ∧
    (generate_audio_callback mergeReadyState "/tmp/sess/voiceover_2.mp3" true).audio_path ≠
        mergeReadyState.audio_path :=
  ⟨(rerun_audio_replaces_audio_only mergeReadyState "/tmp/sess/voiceover_2.mp3"
      (by decide)).1,
   (rerun_audio_replaces_audio_only mergeReadyState "/tmp/sess/voiceover_2.mp3"
      (by decide)).2.1⟩

/-- Claim C9, counterexample. `start_over` never touches the scratch directory:
after resetting the MergeReady session, the session's scratch files are all
still present — they are not discarded as the claim states. -/
theorem start_over_keeps_scratch_files :
    (start_over mergeReadyState).scratch_files = mergeReadyState.scratch_files ∧
    (start_over mergeReadyState).scratch_files ≠ [] := by
  exact ⟨rfl, by decide⟩

/-- Claim C9, amended: a full reset returns the controller to Idle (ordinal 0)
and sets all four artifact references to empty/absent, but it does NOT discard
the session's scratch files — `start_over` performs no file deletion and keeps
`temp_dir`, so the scratch directory and every file in it survive the reset. -/
theorem start_over_resets_pipeline (s : AppState) :
    (start_over s).processing_step = 0 ∧
    (start_over s).video_path = none ∧
    (start_over s).voiceover_text = "" ∧
    (start_over s).audio_path = none ∧
    (start_over s).merged_video_path = none ∧
    (start_over s).scratch_files = s.scratch_files ∧
    (start_over s).temp_dir = s.temp_dir :=
  ⟨rfl, rfl, rfl, rfl, rfl, rfl, rfl⟩

/-- Claim C10: a full reset leaves every user-adjustable parameter unchanged —
instructions, selected voice, voice speed, both volume levels — and the
scratch-directory path: `temp_dir` is preserved, so a subsequent
`get_session_temp_dir` returns the previous directory whenever one existed
(`Option.getD` collapses to the stored directory when present). -/
theorem start_over_preserves_settings (s : AppState) (fresh : String) :
    (start_over s).instructions = s.instructions ∧
    (start_over s).selected_voice = s.selected_voice ∧
    (start_over s).voice_speed = s.voice_speed ∧
    (start_over s).video_volume = s.video_volume ∧
    (start_over s).audio_volume = s.audio_volume ∧
    (start_over s).temp_dir = s.temp_dir ∧
    (get_session_temp_dir (start_over s) fresh).2 = s.temp_dir.getD fresh := by
  refine ⟨rfl, rfl, rfl, rfl, rfl, rfl, ?_⟩
  cases h : s.temp_dir <;> simp [get_session_temp_dir, start_over, h]

/-- Appending strings is associative (helper for the prompt-structure claims). -/
theorem str_append_assoc (a b c : String) : (a ++ b) ++ c = a ++ (b ++ c) := by
  cases a; cases b; cases c
  show String.append (String.append _ _) _ = String.append _ (String.append _ _)
  simp [String.append]

/-- Claim C4: for every duration `d > 0`, narration drafting samples exactly 10
frames at the timestamps `i * d / 9` for `i = 0..9` — the list
`[0, d/9, 2d/9, …, d]`: 10 pairwise-distinct points, the first at 0 and the
last at `d`, the clip's end boundary. -/
theorem frame_sampling_ten_points (d : ℚ) (hd : 0 < d) :
    timestamps d = [0, d/9, 2*d/9, 3*d/9, 4*d/9, 5*d/9, 6*d/9, 7*d/9, 8*d/9, d] ∧
    (timestamps d).length = 10 ∧
    (timestamps d).head? = some 0 ∧
    (timestamps d).getLast? = some d ∧
    (timestamps d).Nodup := by
  have h : List.range 10 = [0, 1, 2, 3, 4, 5, 6, 7, 8, 9] := by decide
  have e : timestamps d = [0, d/9, 2*d/9, 3*d/9, 4*d/9, 5*d/9, 6*d/9, 7*d/9, 8*d/9, d] := by
    simp only [timestamps, h, List.map]
    norm_num
  have hd0 : d ≠ 0 := ne_of_gt hd
  have hinj : Function.Injective (fun i : ℕ => (i : ℚ) * d / 9) := by
    intro a b hab
    simp only at hab
    field_simp at hab
    rcases hab with hab | hab
    · exact_mod_cast hab
    · exact absurd hab hd0
  refine ⟨e, ?_, ?_, ?_, ?_⟩
  · rw [e]; rfl
  · rw [e]; rfl
  · rw [e]; rfl
  · simp only [timestamps]
    exact List.Nodup.map hinj (List.nodup_range 10)

/-- Claim C4, witness at `d = 9`: the sampled timestamps are `0, 1, …, 9`. -/
theorem frame_sampling_ten_points_witness :
    timestamps 9 = [0, 9/9, 2*9/9, 3*9/9, 4*9/9, 5*9/9, 6*9/9, 7*9/9, 8*9/9, 9] ∧
    (timestamps 9).length = 10 ∧
    (timestamps 9).head? = some 0 ∧
    (timestamps 9).getLast? = some 9 ∧
    (timestamps 9).Nodup :=
  frame_sampling_ten_points 9 (by norm_num)

/-- Claim C5: the word budget equals `(200/60) * d`, it is strictly increasing
in the duration, and the prompt sent to the generation service is the user's
instructions followed by the interpolated budget constraint and the sentence
forbidding hashtags and emoji: the rendered budget occurs in the prompt between
the fixed f-string pieces, and the no-hashtags sentence ends the prompt. -/
theorem word_budget_correct (ins : String) (render : ℚ → String) (d d' : ℚ)
    (hd : 0 < d) (hlt : d < d') :
    nwords_max d = (200/60) * d ∧
    nwords_max d < nwords_max d' ∧
    generate_voiceover_text_prompt ins d render =
      (ins ++ (word_budget_pre ++ render (nwords_max d) ++ word_budget_post)) ++
        no_hashtag_sentence ∧
    generate_voiceover_text_prompt ins d render =
      (ins ++ word_budget_pre) ++ render (nwords_max d) ++
        (word_budget_post ++ no_hashtag_sentence) := by
  refine ⟨rfl, ?_, rfl, ?_⟩
  · have hpos : (0:ℚ) < 200/60 := by norm_num
    exact mul_lt_mul_of_pos_left hlt hpos
  · show (ins ++ (word_budget_pre ++ render (nwords_max d) ++ word_budget_post)) ++
        no_hashtag_sentence = _
    rw [str_append_assoc, str_append_assoc, str_append_assoc,
      ← str_append_assoc ins word_budget_pre,
      ← str_append_assoc (ins ++ word_budget_pre)]

/-- Claim C5, witness at instructions `"narrate simply"`, duration 3 against 6,
with a fixed rendering of the budget value. -/
theorem word_budget_correct_witness :
    nwords_max 3 = (200/60) * 3 ∧ nwords_max 3 < nwords_max 6 :=
  ⟨(word_budget_correct "narrate simply" (fun _ => "10.0") 3 6 (by norm_num) (by norm_num)).1,
   (word_budget_correct "narrate simply" (fun _ => "10.0") 3 6 (by norm_num)
      (by norm_num)).2.1⟩

/-- Gain scaling never changes a clip's duration (helper). -/
theorem added_audio_scaled_duration (c : AudioClip) (v : ℚ) :
    (added_audio_scaled c v).duration = c.duration := by
  unfold added_audio_scaled
  split <;> rfl

/-- Claim C6: when the synthesized track is longer than the video, the merge
trims it to the video's duration, so the merged output's audio duration equals
the video duration exactly — not the synthesized duration. (The embedded
original track of a video never outlasts the video itself, the hypothesis
`horig`.) -/
theorem truncation_bounds_merged_audio (video_clip : VideoClip) (added_audio_clip : AudioClip)
    (video_volume audio_volume : ℚ)
    (horig : ∀ a, video_clip.audio = some a → a.duration ≤ video_clip.duration)
    (hlong : added_audio_clip.duration > video_clip.duration) :
    (final_audio video_clip added_audio_clip video_volume audio_volume).duration =
      video_clip.duration := by
  have ht : (added_audio_trimmed video_clip
      (added_audio_scaled added_audio_clip audio_volume)).duration = video_clip.duration := by
    unfold added_audio_trimmed
    rw [if_pos]
    · show video_clip.duration - 0 = video_clip.duration
      ring
    · rw [added_audio_scaled_duration]
      exact hlong
  unfold final_audio
  cases hA : video_clip.audio with
  | none =>
    simp only [original_audio_scaled, hA]
    exact ht
  | some a =>
    simp only [original_audio_scaled, hA, CompositeAudioClip]
    have ha : (if video_volume ≠ 1 then with_volume_scaled a video_volume else a).duration =
        a.duration := by split <;> rfl
    rw [ht, ha]
    exact max_eq_right (horig a hA)

/-- Claim C6, witness: a 9-second silent-video merge with a 12-second
synthesized track yields a merged audio track of exactly 9 seconds. -/
theorem truncation_bounds_merged_audio_witness :
    (final_audio { duration := 9, audio := none }
      { duration := 12, samples := fun _ => 1 } (3/10) 1).duration = 9 :=
  truncation_bounds_merged_audio { duration := 9, audio := none }
    { duration := 12, samples := fun _ => 1 } (3/10) 1
    (fun a h => by simp at h) (by norm_num)

/-- Claim C7: a gain factor of exactly 1 is an identity — `with_volume_scaled`
at factor 1 returns the track with its sample data unaltered — and the code's
no-op fast paths (both the added-audio branch and the original-audio branch
skip the scaling call when the factor equals 1) are observably equivalent to
applying a scale of 1. -/
theorem gain_one_is_identity (c : AudioClip) (video_clip : VideoClip) (g : ℚ) (hg : g = 1) :
    with_volume_scaled c g = c ∧
    (with_volume_scaled c g).samples = c.samples ∧
    added_audio_scaled c g = with_volume_scaled c g ∧
    original_audio_scaled video_clip g =
      Option.map (fun a => with_volume_scaled a g) video_clip.audio := by
  subst hg
  have hid : ∀ a : AudioClip, with_volume_scaled a 1 = a := by
    intro a
    cases a with
    | mk dur smp =>
      unfold with_volume_scaled
      simp only [AudioClip.mk.injEq, true_and]
      funext t
      ring
  refine ⟨hid c, by rw [hid c], ?_, ?_⟩
  · unfold added_audio_scaled
    rw [if_neg (by simp), hid c]
  · unfold original_audio_scaled
    cases hA : video_clip.audio with
    | none => rfl
    | some a =>
      show some (if (1:ℚ) ≠ 1 then with_volume_scaled a 1 else a) =
        some (with_volume_scaled a 1)
      rw [if_neg (by simp), hid a]

/-- Claim C7, witness at a concrete constant track and a silent video. -/
theorem gain_one_is_identity_witness :
    with_volume_scaled { duration := 2, samples := fun _ => 5 } 1 =
      { duration := 2, samples := fun _ => 5 } ∧
    added_audio_scaled { duration := 2, samples := fun _ => 5 } 1 =
      with_volume_scaled { duration := 2, samples := fun _ => 5 } 1 :=
  ⟨(gain_one_is_identity { duration := 2, samples := fun _ => 5 }
      { duration := 9, audio := none } 1 rfl).1,
   (gain_one_is_identity { duration := 2, samples := fun _ => 5 }
      { duration := 9, audio := none } 1 rfl).2.2.1⟩

/-- Claim C8: when the video has no embedded audio track, the merged output's
audio is exactly the gain-adjusted, possibly truncated synthesized track alone,
and the original-track gain factor (`video_volume`) has no effect on the
result. -/
theorem no_original_audio_merge (video_clip : VideoClip) (added_audio_clip : AudioClip)
    (video_volume video_volume' audio_volume : ℚ) (h : video_clip.audio = none) :
    final_audio video_clip added_audio_clip video_volume audio_volume =
      added_audio_trimmed video_clip (added_audio_scaled added_audio_clip audio_volume) ∧
    final_audio video_clip added_audio_clip video_volume audio_volume =
      final_audio video_clip added_audio_clip video_volume' audio_volume := by
  unfold final_audio
  refine ⟨?_, ?_⟩ <;> simp [original_audio_scaled, h]

/-- Claim C8, witness: the spec's end-to-end scenario — a 9-second video with
no audio track, original gain `0.3`, synthesized gain `1.0`. -/
theorem no_original_audio_merge_witness :
    final_audio { duration := 9, audio := none } { duration := 12, samples := fun _ => 1 }
        (3/10) 1 =
      added_audio_trimmed { duration := 9, audio := none }
        (added_audio_scaled { duration := 12, samples := fun _ => 1 } 1) ∧
    final_audio { duration := 9, audio := none } { duration := 12, samples := fun _ => 1 }
        (3/10) 1 =
      final_audio { duration := 9, audio := none } { duration := 12, samples := fun _ => 1 }
        1 1 :=
  no_original_audio_merge { duration := 9, audio := none }
    { duration := 12, samples := fun _ => 1 } (3/10) 1 1 rfl

/-- Claim C3, counterexample. When `write_videofile` raises on a video that has
an embedded audio track, all four media handles are open but the `except` block
closes none of them before re-raising: the close calls (utils.py lines 154-158)
sit after the write inside the `try`, so they never run on the exception path. -/
theorem merge_exception_leaks_handles :
    (merge_video_with_audio_run true (some MergeFailure.writeFile)).raised = true ∧
    (merge_video_with_audio_run true (some MergeFailure.writeFile)).closed = [] ∧
    MediaHandle.video_clip ∈
      (merge_video_with_audio_run true (some MergeFailure.writeFile)).opened := by
  decide

/-- Claim C3, amended: the merge releases every opened media handle on the
SUCCESS path only (video clip, added audio clip, original audio when present,
final clip are all closed after a successful write, and nothing is re-raised);
on every failing path the exception is re-raised to the caller, but no handle
is closed first — the `except` block contains no release. -/
theorem merge_handle_release_success_only (has_original_audio : Bool) :
    ((merge_video_with_audio_run has_original_audio none).closed =
        (merge_video_with_audio_run has_original_audio none).opened ∧
      (merge_video_with_audio_run has_original_audio none).raised = false) ∧
    ∀ f : MergeFailure,
      (merge_video_with_audio_run has_original_audio (some f)).closed = [] ∧
      (merge_video_with_audio_run has_original_audio (some f)).raised = true := by
  constructor
  · cases has_original_audio <;> decide
  · intro f
    cases has_original_audio <;> cases f <;> decide
